import Mathlib

/-!
Verification of the paper-microfluidics plate layout engine
(`pyplate/plate.py`) against its specification.

The source draws a paper microplate as an SVG document: two rounded edge
rectangles, a grid of well circles, and row/column text labels.  We embed
the drawing state, the three drawing passes and the two format presets as
executable Lean definitions over exact rationals (the source uses Python
floats; the specification treats the coordinate arithmetic as exact, so
coordinates are modelled in ℚ).  Python's `IndexError` on a too-small fill
matrix is modelled with `Option`: a construction that would raise returns
`none`.
-/

set_option autoImplicit false

namespace PaperMicrofluidics

/-- A drawing primitive, mirroring the svgwrite calls made by the source:
`svg.rect(insert, size, rx, stroke_width, stroke, fill)`,
`svg.circle(center, r, stroke_width, stroke, fill)` and
`svg.text(text, insert, text_anchor, font_size, alignment_baseline, font_family)`. -/
inductive Primitive where
  | rect (insert : ℚ × ℚ) (size : ℚ × ℚ) (rx : ℚ) (stroke_width : ℚ)
      (stroke : String) (fill : String)
  | circle (center : ℚ × ℚ) (r : ℚ) (stroke_width : ℚ)
      (stroke : String) (fill : String)
  | text (content : String) (insert : ℚ × ℚ) (text_anchor : String)
      (font_size : ℚ) (alignment_baseline : String) (font_family : String)
  deriving DecidableEq, Repr

/-- The drawing document (`svgwrite.Drawing`): a viewport size in mm, the
viewbox declaration (user units), and the ordered list of primitives added
so far.  The source writes the size as strings with an `mm` suffix; we keep
the numeric millimetre values. -/
structure Drawing where
  filename : String
  size_mm : ℚ × ℚ
  viewbox : ℚ × ℚ
  elements : List Primitive
  deriving DecidableEq, Repr

/-- `svg.add(primitive)`: append one primitive to the document. -/
def Drawing.add (d : Drawing) (p : Primitive) : Drawing :=
  { d with elements := d.elements ++ [p] }

/-- The `well_fill` argument of `PaperPlate.__init__`: either a single color
string or a matrix of color strings. -/
inductive WellFill where
  | color (s : String)
  | matrix (m : List (List String))
  deriving DecidableEq, Repr

/-- The fill-matrix computation in `PaperPlate.__init__`: a single string is
broadcast to an `n_rows × n_cols` matrix; a matrix argument is deep-copied
(`copy.deepcopy`), which on immutable values is the identity. -/
def mk_fill_matrix (n_rows n_cols : Nat) (well_fill : WellFill) : List (List String) :=
  match well_fill with
  | .color s => (List.range n_rows).map fun _ => (List.range n_cols).map fun _ => s
  | .matrix m => m

/-- Python's `matrix[row][col]` as a partial lookup: `none` models the
`IndexError` raised on an out-of-range index. -/
def fm_get (fm : List (List String)) (row col : Nat) : Option String :=
  (fm.get? row).bind fun r => r.get? col

/-- The full parameter list of `PaperPlate.__init__`. -/
structure PaperPlateParams where
  n_rows : Nat
  n_cols : Nat
  plate_length : ℚ
  plate_width : ℚ
  barrier_thickness : ℚ
  well_diameter : ℚ
  well_separation : ℚ
  margin : ℚ
  left_padding : ℚ
  top_padding : ℚ
  edge_corner_radius : ℚ
  edge_thickness : ℚ
  edges_distance : ℚ
  label_font_size : ℚ
  well_fill : WellFill
  deriving DecidableEq, Repr

/-- `PaperPlate._draw_edges`: add the outer rounded rectangle and then the
inner rounded rectangle, both with white fill and black stroke. -/
def draw_edges (d : Drawing) (margin plate_length plate_width edge_corner_radius
    edge_thickness edges_distance : ℚ) : Drawing :=
  let d := d.add (.rect (margin, margin) (plate_length, plate_width)
    edge_corner_radius edge_thickness "black" "white")
  d.add (.rect (margin + edges_distance, margin + edges_distance)
    (plate_length - 2 * edges_distance, plate_width - 2 * edges_distance)
    (edge_corner_radius - edges_distance) edge_thickness "black" "white")

/-- `PaperPlate._draw_wells`: for each row and each column add a circle whose
fill is `fill_matrix[row][col]`; an out-of-range access aborts the whole
construction (`none`), like the Python `IndexError`. -/
def draw_wells (d : Drawing) (n_rows n_cols : Nat) (left_x top_y well_separation
    well_diameter barrier_thickness : ℚ) (fm : List (List String)) : Option Drawing :=
  (List.range n_rows).foldlM (fun d (row : Nat) =>
    (List.range n_cols).foldlM (fun d (col : Nat) =>
      (fm_get fm row col).map fun fill =>
        d.add (.circle (left_x + (col : ℚ) * well_separation,
                        top_y + (row : ℚ) * well_separation)
          (well_diameter / 2) barrier_thickness "black" fill)) d) d

/-- `PaperPlate._draw_labels`: one text per row (the character `chr(row + 65)`)
then one text per column (the decimal string `str(col + 1)`). -/
def draw_labels (d : Drawing) (n_rows n_cols : Nat) (left_x top_y well_separation
    font_size : ℚ) : Drawing :=
  let d := (List.range n_rows).foldl (fun d (row : Nat) =>
    d.add (.text (Char.ofNat (row + 65)).toString
      (-0.75 * well_separation + left_x,
       (row : ℚ) * well_separation + top_y + font_size / 8)
      "middle" font_size "middle" "Futura")) d
  (List.range n_cols).foldl (fun d (col : Nat) =>
    d.add (.text (toString (col + 1))
      ((col : ℚ) * well_separation + left_x,
       -0.55 * well_separation + top_y - font_size / 8)
      "middle" font_size "middle" "Futura")) d

/-- The constructed plate: the fields `PaperPlate.__init__` stores on `self`. -/
structure PaperPlate where
  n_rows : Nat
  n_cols : Nat
  plate_length : ℚ
  plate_width : ℚ
  barrier_thickness : ℚ
  well_diameter : ℚ
  well_separation : ℚ
  margin : ℚ
  edge_corner_radius : ℚ
  edge_thickness : ℚ
  edges_distance : ℚ
  label_font_size : ℚ
  fill_matrix : List (List String)
  top_y : ℚ
  left_x : ℚ
  svg : Drawing
  deriving DecidableEq, Repr

/-- `PaperPlate.__init__`: store the parameters, build the fill matrix,
compute the grid origin, create the drawing with its viewport and viewbox,
then draw edges, wells and labels in that order.  Returns `none` when the
well pass raises (fill-matrix index out of range). -/
def mkPaperPlate (P : PaperPlateParams) : Option PaperPlate :=
  let fm := mk_fill_matrix P.n_rows P.n_cols P.well_fill
  let top_y := P.margin + P.top_padding
  let left_x := P.margin + P.left_padding
  let viewport : ℚ × ℚ := (P.plate_length + 2 * P.margin, P.plate_width + 2 * P.margin)
  let svg0 : Drawing :=
    { filename := "paper-plate.svg", size_mm := viewport, viewbox := viewport,
      elements := [] }
  let svg1 := draw_edges svg0 P.margin P.plate_length P.plate_width
    P.edge_corner_radius P.edge_thickness P.edges_distance
  (draw_wells svg1 P.n_rows P.n_cols left_x top_y P.well_separation
      P.well_diameter P.barrier_thickness fm).map fun svg2 =>
    let svg3 := draw_labels svg2 P.n_rows P.n_cols left_x top_y
      P.well_separation P.label_font_size
    { n_rows := P.n_rows, n_cols := P.n_cols, plate_length := P.plate_length,
      plate_width := P.plate_width, barrier_thickness := P.barrier_thickness,
      well_diameter := P.well_diameter, well_separation := P.well_separation,
      margin := P.margin, edge_corner_radius := P.edge_corner_radius,
      edge_thickness := P.edge_thickness, edges_distance := P.edges_distance,
      label_font_size := P.label_font_size, fill_matrix := fm,
      top_y := top_y, left_x := left_x, svg := svg3 }

/-- The `Plate96` preset: an 8 × 12 plate with the ANSI/SLAS standard
dimensions.  The source gives `edge_thickness = 0.75`, `edge_distance = 1.0`
and `well_fill = white` as defaults; here they are passed explicitly. -/
def Plate96 (barrier_tickness well_diameter margin edge_thickness
    edge_distance : ℚ) (well_fill : WellFill) : Option PaperPlate :=
  mkPaperPlate
    { n_rows := 8, n_cols := 12, plate_length := 127.76, plate_width := 85.48,
      barrier_thickness := barrier_tickness, well_diameter := well_diameter,
      well_separation := 9, margin := margin, left_padding := 14.38,
      top_padding := 11.24, edge_corner_radius := 3.18,
      edge_thickness := edge_thickness, edges_distance := edge_distance,
      label_font_size := 4, well_fill := well_fill }

/-- The `Plate384` preset: a 16 × 24 plate with the ANSI/SLAS standard
dimensions. -/
def Plate384 (barrier_tickness well_diameter margin edge_thickness
    edge_distance : ℚ) (well_fill : WellFill) : Option PaperPlate :=
  mkPaperPlate
    { n_rows := 16, n_cols := 24, plate_length := 127.76, plate_width := 85.48,
      barrier_thickness := barrier_tickness, well_diameter := well_diameter,
      well_separation := 4.5, margin := margin, left_padding := 12.7,
      top_padding := 8.99, edge_corner_radius := 3.18,
      edge_thickness := edge_thickness, edges_distance := edge_distance,
      label_font_size := 3, well_fill := well_fill }

/-- `PaperPlate.to_pdf_inkscape`, reduced to its error-relevant observable
behaviour: the method saves the SVG, builds the command
`inkscape -f <svg> -A <pdf>` and runs it through `os.system`, whose return
value (the subprocess exit status) is discarded — the method raises nothing
and returns `None` for every exit status. -/
structure ExportRun where
  svg_saved : Bool
  command : String
  raised_error : Bool
  deriving DecidableEq, Repr

/-- Embedding of the body of `to_pdf_inkscape` as a function of the exit
status the conversion subprocess will report: the status is never inspected. -/
def to_pdf_inkscape (inkscape_path svg_path pdf_path : String)
    (returncode : Int) : ExportRun :=
  { svg_saved := true
    command := inkscape_path ++ " -f " ++ svg_path ++ " -A " ++ pdf_path
    raised_error := false }

/-- Closed form of the two edge rectangles added by `_draw_edges`. -/
def edge_rects (margin plate_length plate_width edge_corner_radius
    edge_thickness edges_distance : ℚ) : List Primitive :=
  [.rect (margin, margin) (plate_length, plate_width) edge_corner_radius
      edge_thickness "black" "white",
   .rect (margin + edges_distance, margin + edges_distance)
      (plate_length - 2 * edges_distance, plate_width - 2 * edges_distance)
      (edge_corner_radius - edges_distance) edge_thickness "black" "white"]

/-- Closed form of the well circles added by `_draw_wells`, row-major. -/
def well_circles (n_rows n_cols : Nat) (left_x top_y well_separation
    well_diameter barrier_thickness : ℚ) (fm : List (List String)) : List Primitive :=
  ((List.range n_rows).map fun (row : Nat) => (List.range n_cols).map fun (col : Nat) =>
    Primitive.circle (left_x + (col : ℚ) * well_separation,
                      top_y + (row : ℚ) * well_separation)
      (well_diameter / 2) barrier_thickness "black"
      ((fm_get fm row col).getD "")).flatten

/-- Closed form of the row labels added by `_draw_labels`. -/
def row_label_texts (n_rows : Nat) (left_x top_y well_separation font_size : ℚ) :
    List Primitive :=
  (List.range n_rows).map fun (row : Nat) =>
    Primitive.text (Char.ofNat (row + 65)).toString
      (-0.75 * well_separation + left_x,
       (row : ℚ) * well_separation + top_y + font_size / 8)
      "middle" font_size "middle" "Futura"

/-- Closed form of the column labels added by `_draw_labels`. -/
def col_label_texts (n_cols : Nat) (left_x top_y well_separation font_size : ℚ) :
    List Primitive :=
  (List.range n_cols).map fun (col : Nat) =>
    Primitive.text (toString (col + 1))
      ((col : ℚ) * well_separation + left_x,
       -0.55 * well_separation + top_y - font_size / 8)
      "middle" font_size "middle" "Futura"

/-- Is this primitive a circle? -/
def is_circle : Primitive → Bool
  | .circle _ _ _ _ _ => true
  | _ => false

/-- Is this primitive a rectangle? -/
def is_rect : Primitive → Bool
  | .rect _ _ _ _ _ _ => true
  | _ => false

/-- The content of a text primitive, if one. -/
def text_content : Primitive → Option String
  | .text s _ _ _ _ _ => some s
  | _ => none

/-- Every fill-matrix lookup the well pass performs succeeds, i.e. the matrix
covers all of `[0, n_rows) × [0, n_cols)`.  This is exactly the condition under
which `PaperPlate.__init__` runs to completion. -/
def fill_ok (n_rows n_cols : Nat) (fm : List (List String)) : Prop :=
  ∀ r < n_rows, ∀ c < n_cols, (fm_get fm r c).isSome = true

instance (n_rows n_cols : Nat) (fm : List (List String)) :
    Decidable (fill_ok n_rows n_cols fm) :=
  inferInstanceAs (Decidable (∀ r < n_rows, ∀ c < n_cols, _))

/-- The grid origin and viewport derived in `__init__`. -/
def left_x_of (P : PaperPlateParams) : ℚ := P.margin + P.left_padding

/-- The y coordinate of the first row of well centers. -/
def top_y_of (P : PaperPlateParams) : ℚ := P.margin + P.top_padding

/-- The viewport computed in `__init__`. -/
def viewport_of (P : PaperPlateParams) : ℚ × ℚ :=
  (P.plate_length + 2 * P.margin, P.plate_width + 2 * P.margin)

/-- Closed form of the whole element list of a successfully constructed
plate: edges, then wells, then row labels, then column labels. -/
def plate_elements (P : PaperPlateParams) : List Primitive :=
  edge_rects P.margin P.plate_length P.plate_width P.edge_corner_radius
      P.edge_thickness P.edges_distance ++
    well_circles P.n_rows P.n_cols (left_x_of P) (top_y_of P) P.well_separation
      P.well_diameter P.barrier_thickness
      (mk_fill_matrix P.n_rows P.n_cols P.well_fill) ++
    (row_label_texts P.n_rows (left_x_of P) (top_y_of P) P.well_separation
        P.label_font_size ++
      col_label_texts P.n_cols (left_x_of P) (top_y_of P) P.well_separation
        P.label_font_size)

/-- Closed form of a successfully constructed plate. -/
def plate_spec (P : PaperPlateParams) : PaperPlate :=
  { n_rows := P.n_rows, n_cols := P.n_cols, plate_length := P.plate_length,
    plate_width := P.plate_width, barrier_thickness := P.barrier_thickness,
    well_diameter := P.well_diameter, well_separation := P.well_separation,
    margin := P.margin, edge_corner_radius := P.edge_corner_radius,
    edge_thickness := P.edge_thickness, edges_distance := P.edges_distance,
    label_font_size := P.label_font_size,
    fill_matrix := mk_fill_matrix P.n_rows P.n_cols P.well_fill,
    top_y := top_y_of P, left_x := left_x_of P,
    svg := { filename := "paper-plate.svg", size_mm := viewport_of P,
             viewbox := viewport_of P, elements := plate_elements P } }

section FoldLemmas

/-- A fold of single-primitive adds appends the mapped list. -/
theorem foldl_add_map {α : Type} (l : List α) (g : α → Primitive) (d : Drawing) :
    l.foldl (fun d x => d.add (g x)) d
      = { d with elements := d.elements ++ l.map g } := by
  induction l generalizing d with
  | nil => simp
  | cons x xs ih => rw [List.foldl_cons, ih]; simp [Drawing.add]

/-- A monadic fold of adds whose lookups all succeed appends the mapped list. -/
theorem foldlM_add_map {α : Type} (l : List α) (f : α → Option String)
    (g : α → String → Primitive) (d : Drawing)
    (h : ∀ x ∈ l, (f x).isSome = true) :
    (l.foldlM (fun d x => (f x).map fun s => d.add (g x s)) d : Option Drawing)
      = some { d with elements := d.elements ++ l.map fun x => g x ((f x).getD "") } := by
  induction l generalizing d with
  | nil => simp
  | cons x xs ih =>
    obtain ⟨s, hs⟩ := Option.isSome_iff_exists.mp (h x (List.mem_cons_self x xs))
    rw [List.foldlM_cons, hs]
    show (xs.foldlM (fun d x => (f x).map fun s => d.add (g x s))
      (d.add (g x s)) : Option Drawing) = _
    rw [ih _ fun y hy => h y (List.mem_cons_of_mem x hy)]
    simp [Drawing.add, hs]

/-- A monadic fold of segment-appending steps appends the flattened list. -/
theorem foldlM_add_flat {α : Type} (l : List α) (F : Drawing → α → Option Drawing)
    (G : α → List Primitive) (d : Drawing)
    (h : ∀ x ∈ l, ∀ d' : Drawing,
      F d' x = some { d' with elements := d'.elements ++ G x }) :
    (l.foldlM F d : Option Drawing)
      = some { d with elements := d.elements ++ (l.map G).flatten } := by
  induction l generalizing d with
  | nil => simp
  | cons x xs ih =>
    rw [List.foldlM_cons, h x (List.mem_cons_self x xs) d]
    show (xs.foldlM F { d with elements := d.elements ++ G x } : Option Drawing) = _
    rw [ih _ fun y hy => h y (List.mem_cons_of_mem x hy)]
    simp

end FoldLemmas

section DrawLemmas

variable (d : Drawing)

/-- The edge pass appends exactly the two edge rectangles. -/
theorem draw_edges_eq (margin plate_length plate_width edge_corner_radius
    edge_thickness edges_distance : ℚ) :
    draw_edges d margin plate_length plate_width edge_corner_radius
        edge_thickness edges_distance
      = { d with elements := d.elements ++ edge_rects margin plate_length
                    plate_width edge_corner_radius edge_thickness edges_distance } := by
  simp [draw_edges, Drawing.add, edge_rects]

/-- The well pass appends exactly the row-major list of well circles when
every fill lookup succeeds. -/
theorem draw_wells_eq (n_rows n_cols : Nat) (left_x top_y well_separation
    well_diameter barrier_thickness : ℚ) (fm : List (List String))
    (h : fill_ok n_rows n_cols fm) :
    draw_wells d n_rows n_cols left_x top_y well_separation well_diameter
        barrier_thickness fm
      = some { d with elements := d.elements ++ well_circles n_rows n_cols
                              left_x top_y well_separation well_diameter
                              barrier_thickness fm } := by
  unfold draw_wells well_circles
  refine foldlM_add_flat _ _ _ _ fun row hrow d' => ?_
  exact foldlM_add_map _ _ _ _ fun col hcol =>
    h row (List.mem_range.mp hrow) col (List.mem_range.mp hcol)

/-- The label pass appends the row labels and then the column labels. -/
theorem draw_labels_eq (n_rows n_cols : Nat) (left_x top_y well_separation
    font_size : ℚ) :
    draw_labels d n_rows n_cols left_x top_y well_separation font_size
      = { d with elements := d.elements ++
                    (row_label_texts n_rows left_x top_y well_separation font_size ++
                      col_label_texts n_cols left_x top_y well_separation font_size) } := by
  unfold draw_labels row_label_texts col_label_texts
  rw [foldl_add_map, foldl_add_map]
  simp

/-- `__init__` as a whole: under `fill_ok` it succeeds and produces exactly
the closed-form plate. -/
theorem mkPaperPlate_eq (P : PaperPlateParams)
    (h : fill_ok P.n_rows P.n_cols (mk_fill_matrix P.n_rows P.n_cols P.well_fill)) :
    mkPaperPlate P = some (plate_spec P) := by
  unfold mkPaperPlate
  dsimp only
  rw [draw_edges_eq, draw_wells_eq _ _ _ _ _ _ _ _ _ h]
  simp only [Option.map_some']
  rw [draw_labels_eq]
  simp [plate_spec, plate_elements, left_x_of, top_y_of, viewport_of]

end DrawLemmas

section IndexLemmas

/-- Length of a flatten of rows of constant length. -/
theorem flatten_length_const {α : Type} (L : List (List α)) (m : Nat)
    (hm : ∀ x ∈ L, x.length = m) : L.flatten.length = L.length * m := by
  induction L with
  | nil => simp
  | cons x xs ih =>
    have hx : x.length = m := hm x (List.mem_cons_self x xs)
    have := ih fun y hy => hm y (List.mem_cons_of_mem x hy)
    simp only [List.flatten_cons, List.length_append, List.length_cons, this, hx,
      Nat.succ_mul]
    omega

/-- Row-major lookup in a flatten of rows of constant length. -/
theorem flatten_get_rowmajor {α : Type} (L : List (List α)) (m i j : Nat)
    (hm : ∀ x ∈ L, x.length = m) (hj : j < m) :
    L.flatten.get? (i * m + j) = (L.get? i).bind fun xs => xs.get? j := by
  induction L generalizing i with
  | nil => simp
  | cons x xs ih =>
    have hx : x.length = m := hm x (List.mem_cons_self x xs)
    cases i with
    | zero =>
      rw [List.flatten_cons, Nat.zero_mul, Nat.zero_add,
        List.get?_append (by omega)]
      simp
    | succ i' =>
      have hge : x.length ≤ (i' + 1) * m + j := by rw [hx, Nat.succ_mul]; omega
      rw [List.flatten_cons, List.get?_append_right hge]
      have hsub : (i' + 1) * m + j - x.length = i' * m + j := by
        rw [hx, Nat.succ_mul]; omega
      rw [hsub, ih i' fun y hy => hm y (List.mem_cons_of_mem x hy)]
      simp

/-- The well pass emits `n_rows * n_cols` circles. -/
theorem well_circles_length (n_rows n_cols : Nat) (left_x top_y well_separation
    well_diameter barrier_thickness : ℚ) (fm : List (List String)) :
    (well_circles n_rows n_cols left_x top_y well_separation well_diameter
      barrier_thickness fm).length = n_rows * n_cols := by
  unfold well_circles
  rw [flatten_length_const _ n_cols]
  · simp
  · intro x hx
    obtain ⟨row, _, rfl⟩ := List.mem_map.mp hx
    simp

/-- The well circle at row-major position `r * n_cols + c`. -/
theorem well_circles_get (n_rows n_cols : Nat) (left_x top_y well_separation
    well_diameter barrier_thickness : ℚ) (fm : List (List String))
    (r c : Nat) (hr : r < n_rows) (hc : c < n_cols) :
    (well_circles n_rows n_cols left_x top_y well_separation well_diameter
        barrier_thickness fm).get? (r * n_cols + c)
      = some (.circle (left_x + (c : ℚ) * well_separation,
                       top_y + (r : ℚ) * well_separation)
          (well_diameter / 2) barrier_thickness "black"
          ((fm_get fm r c).getD "")) := by
  unfold well_circles
  rw [flatten_get_rowmajor _ n_cols r c ?rows hc]
  case rows =>
    intro x hx
    obtain ⟨row, _, rfl⟩ := List.mem_map.mp hx
    simp
  rw [List.get?_map, List.get?_range hr]
  simp only [Option.map_some', Option.some_bind]
  rw [List.get?_map, List.get?_range hc]
  simp

/-- Every primitive emitted by the well pass is a circle. -/
theorem mem_well_circles (n_rows n_cols : Nat) (left_x top_y well_separation
    well_diameter barrier_thickness : ℚ) (fm : List (List String))
    (p : Primitive) (hp : p ∈ well_circles n_rows n_cols left_x top_y
      well_separation well_diameter barrier_thickness fm) :
    is_circle p = true := by
  simp only [well_circles, List.mem_flatten, List.mem_map] at hp
  obtain ⟨l, ⟨row, _, rfl⟩, hpl⟩ := hp
  obtain ⟨col, _, rfl⟩ := List.mem_map.mp hpl
  rfl

/-- Every primitive emitted by the label pass is a text. -/
theorem mem_label_texts (n_rows n_cols : Nat) (left_x top_y well_separation
    font_size : ℚ) (p : Primitive)
    (hp : p ∈ row_label_texts n_rows left_x top_y well_separation font_size ++
      col_label_texts n_cols left_x top_y well_separation font_size) :
    is_circle p = false ∧ is_rect p = false := by
  rcases List.mem_append.mp hp with h | h
  · obtain ⟨row, _, rfl⟩ := List.mem_map.mp h
    exact ⟨rfl, rfl⟩
  · obtain ⟨col, _, rfl⟩ := List.mem_map.mp h
    exact ⟨rfl, rfl⟩

/-- Rectangle count of the full document: the two edge rectangles only. -/
theorem plate_elements_count_rect (P : PaperPlateParams) :
    (plate_elements P).countP is_rect = 2 := by
  unfold plate_elements
  rw [List.countP_append, List.countP_append]
  have h1 : (edge_rects P.margin P.plate_length P.plate_width
      P.edge_corner_radius P.edge_thickness P.edges_distance).countP is_rect = 2 := rfl
  have h2 : (well_circles P.n_rows P.n_cols (left_x_of P) (top_y_of P)
      P.well_separation P.well_diameter P.barrier_thickness
      (mk_fill_matrix P.n_rows P.n_cols P.well_fill)).countP is_rect = 0 := by
    rw [List.countP_eq_zero]
    intro p hp
    have := mem_well_circles _ _ _ _ _ _ _ _ p hp
    cases p <;> simp_all [is_circle, is_rect]
  have h3 : ((row_label_texts P.n_rows (left_x_of P) (top_y_of P)
        P.well_separation P.label_font_size ++
      col_label_texts P.n_cols (left_x_of P) (top_y_of P)
        P.well_separation P.label_font_size)).countP is_rect = 0 := by
    rw [List.countP_eq_zero]
    intro p hp
    rw [(mem_label_texts _ _ _ _ _ _ p hp).2]
    simp
  omega

/-- Circle count of the full document: one per well. -/
theorem plate_elements_count_circle (P : PaperPlateParams) :
    (plate_elements P).countP is_circle = P.n_rows * P.n_cols := by
  unfold plate_elements
  rw [List.countP_append, List.countP_append]
  have h1 : (edge_rects P.margin P.plate_length P.plate_width
      P.edge_corner_radius P.edge_thickness P.edges_distance).countP is_circle = 0 := rfl
  have h2 : (well_circles P.n_rows P.n_cols (left_x_of P) (top_y_of P)
      P.well_separation P.well_diameter P.barrier_thickness
      (mk_fill_matrix P.n_rows P.n_cols P.well_fill)).countP is_circle
      = P.n_rows * P.n_cols := by
    rw [List.countP_eq_length.mpr (mem_well_circles _ _ _ _ _ _ _ _),
      well_circles_length]
  have h3 : ((row_label_texts P.n_rows (left_x_of P) (top_y_of P)
        P.well_separation P.label_font_size ++
      col_label_texts P.n_cols (left_x_of P) (top_y_of P)
        P.well_separation P.label_font_size)).countP is_circle = 0 := by
    rw [List.countP_eq_zero]
    intro p hp
    rw [(mem_label_texts _ _ _ _ _ _ p hp).1]
    simp
  omega

/-- Lookup of the outer edge rectangle (document position 0). -/
theorem plate_elements_get_outer (P : PaperPlateParams) :
    (plate_elements P).get? 0
      = some (.rect (P.margin, P.margin) (P.plate_length, P.plate_width)
          P.edge_corner_radius P.edge_thickness "black" "white") := by
  unfold plate_elements edge_rects
  rfl

/-- Lookup of the inner edge rectangle (document position 1). -/
theorem plate_elements_get_inner (P : PaperPlateParams) :
    (plate_elements P).get? 1
      = some (.rect (P.margin + P.edges_distance, P.margin + P.edges_distance)
          (P.plate_length - 2 * P.edges_distance, P.plate_width - 2 * P.edges_distance)
          (P.edge_corner_radius - P.edges_distance) P.edge_thickness
          "black" "white") := by
  unfold plate_elements edge_rects
  rfl

/-- Lookup of the well circle for grid position `(r, c)`: it sits at document
position `2 + (r * n_cols + c)`. -/
theorem plate_elements_get_well (P : PaperPlateParams) (r c : Nat)
    (hr : r < P.n_rows) (hc : c < P.n_cols) :
    (plate_elements P).get? (2 + (r * P.n_cols + c))
      = some (.circle (left_x_of P + (c : ℚ) * P.well_separation,
                       top_y_of P + (r : ℚ) * P.well_separation)
          (P.well_diameter / 2) P.barrier_thickness "black"
          ((fm_get (mk_fill_matrix P.n_rows P.n_cols P.well_fill) r c).getD "")) := by
  unfold plate_elements
  rw [List.append_assoc, List.get?_append_right (by simp [edge_rects]),
    List.get?_append]
  · have : 2 + (r * P.n_cols + c) - (edge_rects P.margin P.plate_length
        P.plate_width P.edge_corner_radius P.edge_thickness
        P.edges_distance).length = r * P.n_cols + c := by
      simp [edge_rects]
    rw [this]
    exact well_circles_get _ _ _ _ _ _ _ _ r c hr hc
  · have hlen := well_circles_length P.n_rows P.n_cols (left_x_of P) (top_y_of P)
      P.well_separation P.well_diameter P.barrier_thickness
      (mk_fill_matrix P.n_rows P.n_cols P.well_fill)
    have hidx : r * P.n_cols + c < P.n_rows * P.n_cols := by
      have : r * P.n_cols + c < (r + 1) * P.n_cols := by
        rw [Nat.succ_mul]; omega
      have hmul : (r + 1) * P.n_cols ≤ P.n_rows * P.n_cols :=
        Nat.mul_le_mul_right _ hr
      omega
    simp [edge_rects, hlen]
    omega

/-- Lookup of the row label for row `r`: it sits right after the wells, at
document position `2 + n_rows * n_cols + r`. -/
theorem plate_elements_get_row_label (P : PaperPlateParams) (r : Nat)
    (hr : r < P.n_rows) :
    (plate_elements P).get? (2 + P.n_rows * P.n_cols + r)
      = some (.text (Char.ofNat (r + 65)).toString
          (-0.75 * P.well_separation + left_x_of P,
           (r : ℚ) * P.well_separation + top_y_of P + P.label_font_size / 8)
          "middle" P.label_font_size "middle" "Futura") := by
  unfold plate_elements
  have hlen := well_circles_length P.n_rows P.n_cols (left_x_of P) (top_y_of P)
    P.well_separation P.well_diameter P.barrier_thickness
    (mk_fill_matrix P.n_rows P.n_cols P.well_fill)
  rw [List.get?_append_right (by simp [edge_rects, hlen]; omega)]
  have hsub : 2 + P.n_rows * P.n_cols + r -
      (edge_rects P.margin P.plate_length P.plate_width P.edge_corner_radius
          P.edge_thickness P.edges_distance ++
        well_circles P.n_rows P.n_cols (left_x_of P) (top_y_of P)
          P.well_separation P.well_diameter P.barrier_thickness
          (mk_fill_matrix P.n_rows P.n_cols P.well_fill)).length = r := by
    simp [edge_rects, hlen]; omega
  rw [hsub, List.get?_append (by simp [row_label_texts]; omega)]
  unfold row_label_texts
  rw [List.get?_map, List.get?_range hr]
  rfl

/-- Lookup of the column label for column `c`: it sits after the row labels,
at document position `2 + n_rows * n_cols + n_rows + c`. -/
theorem plate_elements_get_col_label (P : PaperPlateParams) (c : Nat)
    (hc : c < P.n_cols) :
    (plate_elements P).get? (2 + P.n_rows * P.n_cols + P.n_rows + c)
      = some (.text (toString (c + 1))
          ((c : ℚ) * P.well_separation + left_x_of P,
           -0.55 * P.well_separation + top_y_of P - P.label_font_size / 8)
          "middle" P.label_font_size "middle" "Futura") := by
  unfold plate_elements
  have hlen := well_circles_length P.n_rows P.n_cols (left_x_of P) (top_y_of P)
    P.well_separation P.well_diameter P.barrier_thickness
    (mk_fill_matrix P.n_rows P.n_cols P.well_fill)
  rw [List.get?_append_right (by simp [edge_rects, hlen]; omega)]
  have hsub : 2 + P.n_rows * P.n_cols + P.n_rows + c -
      (edge_rects P.margin P.plate_length P.plate_width P.edge_corner_radius
          P.edge_thickness P.edges_distance ++
        well_circles P.n_rows P.n_cols (left_x_of P) (top_y_of P)
          P.well_separation P.well_diameter P.barrier_thickness
          (mk_fill_matrix P.n_rows P.n_cols P.well_fill)).length
      = P.n_rows + c := by
    simp [edge_rects, hlen]; omega
  rw [hsub, List.get?_append_right (by simp [row_label_texts])]
  have hsub2 : P.n_rows + c - (row_label_texts P.n_rows (left_x_of P)
      (top_y_of P) P.well_separation P.label_font_size).length = c := by
    simp [row_label_texts]
  rw [hsub2]
  unfold col_label_texts
  rw [List.get?_map, List.get?_range hc]
  rfl

end IndexLemmas

section FillLemmas

/-- A broadcast fill matrix answers every in-range lookup with the color. -/
theorem fm_get_broadcast (n_rows n_cols : Nat) (s : String) (r c : Nat)
    (hr : r < n_rows) (hc : c < n_cols) :
    fm_get (mk_fill_matrix n_rows n_cols (WellFill.color s)) r c = some s := by
  unfold mk_fill_matrix fm_get
  rw [List.get?_map, List.get?_range hr]
  simp only [Option.map_some', Option.some_bind]
  rw [List.get?_map, List.get?_range hc]
  rfl

/-- A broadcast fill matrix always satisfies `fill_ok`. -/
theorem fill_ok_broadcast (n_rows n_cols : Nat) (s : String) :
    fill_ok n_rows n_cols (mk_fill_matrix n_rows n_cols (WellFill.color s)) := by
  intro r hr c hc
  rw [fm_get_broadcast n_rows n_cols s r c hr hc]
  rfl

end FillLemmas

section DemoInputs

/-- A small concrete parameter set used to instantiate the general theorems. -/
def P_demo : PaperPlateParams :=
  { n_rows := 2, n_cols := 3, plate_length := 30, plate_width := 20,
    barrier_thickness := 1, well_diameter := 4, well_separation := 6,
    margin := 5, left_padding := 7, top_padding := 6, edge_corner_radius := 2,
    edge_thickness := 1, edges_distance := 1, label_font_size := 4,
    well_fill := .color "white" }

end DemoInputs

/-- C5: every construction emits exactly two edge rectangles, at document
positions 0 and 1: the outer rounded rectangle at `(margin, margin)` sized
`(plateLength, plateWidth)` with corner radius `edgeCornerRadius`, stroke
width `edgeThickness`, white fill and black stroke, and the inner rounded
rectangle at `(margin + edgesDistance, margin + edgesDistance)` sized
`(plateLength − 2·edgesDistance, plateWidth − 2·edgesDistance)` with corner
radius `edgeCornerRadius − edgesDistance`. -/
theorem edges_spec (P : PaperPlateParams)
    (hfill : fill_ok P.n_rows P.n_cols (mk_fill_matrix P.n_rows P.n_cols P.well_fill)) :
    ((mkPaperPlate P).map fun p => p.svg.elements.countP is_rect) = some 2 ∧
    ((mkPaperPlate P).bind fun p => p.svg.elements.get? 0)
      = some (.rect (P.margin, P.margin) (P.plate_length, P.plate_width)
          P.edge_corner_radius P.edge_thickness "black" "white") ∧
    ((mkPaperPlate P).bind fun p => p.svg.elements.get? 1)
      = some (.rect (P.margin + P.edges_distance, P.margin + P.edges_distance)
          (P.plate_length - 2 * P.edges_distance,
           P.plate_width - 2 * P.edges_distance)
          (P.edge_corner_radius - P.edges_distance) P.edge_thickness
          "black" "white") := by
  rw [mkPaperPlate_eq P hfill]
  refine ⟨?_, ?_, ?_⟩
  · show some ((plate_elements P).countP is_rect) = some 2
    rw [plate_elements_count_rect]
  · show (plate_elements P).get? 0 = _
    rw [plate_elements_get_outer]
  · show (plate_elements P).get? 1 = _
    rw [plate_elements_get_inner]

/-- Closed instance of `edges_spec` at a concrete parameter set. -/
theorem edges_spec_witness :
    ((mkPaperPlate P_demo).map fun p => p.svg.elements.countP is_rect) = some 2 :=
  (edges_spec P_demo (by decide)).1

/-- C6: the document viewport is `(plateLength + 2·margin, plateWidth +
2·margin)` and the viewbox declares the same extent in user units, making one
user unit one millimetre, independently of `n_rows` and `n_cols`. -/
theorem viewport_spec (P : PaperPlateParams)
    (hfill : fill_ok P.n_rows P.n_cols (mk_fill_matrix P.n_rows P.n_cols P.well_fill)) :
    ((mkPaperPlate P).map fun p => (p.svg.size_mm, p.svg.viewbox))
      = some ((P.plate_length + 2 * P.margin, P.plate_width + 2 * P.margin),
              (P.plate_length + 2 * P.margin, P.plate_width + 2 * P.margin)) := by
  rw [mkPaperPlate_eq P hfill]
  rfl

/-- Closed instance of `viewport_spec` at a concrete parameter set. -/
theorem viewport_spec_witness :
    ((mkPaperPlate P_demo).map fun p => (p.svg.size_mm, p.svg.viewbox))
      = some ((30 + 2 * 5, 20 + 2 * 5), (30 + 2 * 5, 20 + 2 * 5)) :=
  viewport_spec P_demo (by decide)

/-- C9: the primitives of the constructed document are exactly the two edge
rectangles, then the `n_rows · n_cols` well circles in row-major order, then
all row labels followed by all column labels — the concatenation
edges ++ wells ++ labels. -/
theorem document_order (P : PaperPlateParams)
    (hfill : fill_ok P.n_rows P.n_cols (mk_fill_matrix P.n_rows P.n_cols P.well_fill)) :
    ((mkPaperPlate P).map fun p => p.svg.elements)
      = some (edge_rects P.margin P.plate_length P.plate_width
            P.edge_corner_radius P.edge_thickness P.edges_distance ++
          well_circles P.n_rows P.n_cols (left_x_of P) (top_y_of P)
            P.well_separation P.well_diameter P.barrier_thickness
            (mk_fill_matrix P.n_rows P.n_cols P.well_fill) ++
          (row_label_texts P.n_rows (left_x_of P) (top_y_of P)
              P.well_separation P.label_font_size ++
            col_label_texts P.n_cols (left_x_of P) (top_y_of P)
              P.well_separation P.label_font_size)) := by
  rw [mkPaperPlate_eq P hfill]
  rfl

/-- Closed instance of `document_order` at a concrete parameter set. -/
theorem document_order_witness :
    ((mkPaperPlate P_demo).map fun p => p.svg.elements)
      = some (edge_rects P_demo.margin P_demo.plate_length P_demo.plate_width
            P_demo.edge_corner_radius P_demo.edge_thickness P_demo.edges_distance ++
          well_circles P_demo.n_rows P_demo.n_cols (left_x_of P_demo)
            (top_y_of P_demo) P_demo.well_separation P_demo.well_diameter
            P_demo.barrier_thickness
            (mk_fill_matrix P_demo.n_rows P_demo.n_cols P_demo.well_fill) ++
          (row_label_texts P_demo.n_rows (left_x_of P_demo) (top_y_of P_demo)
              P_demo.well_separation P_demo.label_font_size ++
            col_label_texts P_demo.n_cols (left_x_of P_demo) (top_y_of P_demo)
              P_demo.well_separation P_demo.label_font_size)) :=
  document_order P_demo (by decide)

/-- C7: a single-color `wellFill` broadcasts to every cell of the internally
built `n_rows × n_cols` matrix; an explicit matrix is stored element-for-element
(`copy.deepcopy` is the identity on these immutable values, so the stored
matrix is independent of anything the caller later does to their own copy);
and the constructed plate stores exactly this matrix. -/
theorem fill_matrix_spec (P : PaperPlateParams)
    (hfill : fill_ok P.n_rows P.n_cols (mk_fill_matrix P.n_rows P.n_cols P.well_fill)) :
    ((mkPaperPlate P).map fun p => p.fill_matrix)
      = some (mk_fill_matrix P.n_rows P.n_cols P.well_fill) ∧
    (∀ s : String, P.well_fill = WellFill.color s →
      ∀ r, r < P.n_rows → ∀ c, c < P.n_cols →
        fm_get (mk_fill_matrix P.n_rows P.n_cols P.well_fill) r c = some s) ∧
    (∀ m : List (List String), P.well_fill = WellFill.matrix m →
      mk_fill_matrix P.n_rows P.n_cols P.well_fill = m) := by
  refine ⟨?_, ?_, ?_⟩
  · rw [mkPaperPlate_eq P hfill]
    rfl
  · intro s hs r hr c hc
    rw [hs]
    exact fm_get_broadcast P.n_rows P.n_cols s r c hr hc
  · intro m hm
    rw [hm]
    rfl

/-- Closed instance of `fill_matrix_spec` at a concrete parameter set. -/
theorem fill_matrix_spec_witness :
    fm_get (mk_fill_matrix P_demo.n_rows P_demo.n_cols P_demo.well_fill) 1 2
      = some "white" :=
  (fill_matrix_spec P_demo (by decide)).2.1 "white" rfl 1 (by decide) 2 (by decide)

/-- C1: a construction with `n_rows > 0`, `n_cols > 0` (and a completed well
pass) emits exactly `n_rows · n_cols` circle primitives, and the circle for
grid position `(row, col)` — at document position `2 + (row · n_cols + col)` —
is centered at `(margin + leftPadding + col · wellSeparation,
margin + topPadding + row · wellSeparation)`, has radius `wellDiameter / 2`,
stroke width `barrierThickness`, black stroke, and fill
`fillMatrix[row][col]`. -/
theorem wells_grid (P : PaperPlateParams)
    (hrows : 0 < P.n_rows) (hcols : 0 < P.n_cols)
    (hfill : fill_ok P.n_rows P.n_cols (mk_fill_matrix P.n_rows P.n_cols P.well_fill)) :
    ((mkPaperPlate P).map fun p => p.svg.elements.countP is_circle)
      = some (P.n_rows * P.n_cols) ∧
    ∀ r, r < P.n_rows → ∀ c, c < P.n_cols →
      ((mkPaperPlate P).bind fun p => p.svg.elements.get? (2 + (r * P.n_cols + c)))
        = (fm_get (mk_fill_matrix P.n_rows P.n_cols P.well_fill) r c).map fun fill =>
            Primitive.circle
              (P.margin + P.left_padding + (c : ℚ) * P.well_separation,
               P.margin + P.top_padding + (r : ℚ) * P.well_separation)
              (P.well_diameter / 2) P.barrier_thickness "black" fill := by
  rw [mkPaperPlate_eq P hfill]
  constructor
  · show some ((plate_elements P).countP is_circle) = _
    rw [plate_elements_count_circle]
  · intro r hr c hc
    show (plate_elements P).get? (2 + (r * P.n_cols + c)) = _
    rw [plate_elements_get_well P r c hr hc]
    obtain ⟨f, hf⟩ := Option.isSome_iff_exists.mp (hfill r hr c hc)
    rw [hf]
    rfl

/-- Closed instance of `wells_grid` at a concrete parameter set. -/
theorem wells_grid_witness :
    ((mkPaperPlate P_demo).map fun p => p.svg.elements.countP is_circle)
      = some (2 * 3) :=
  (wells_grid P_demo (by decide) (by decide) (by decide)).1

/-- C3: the label for row `r` is the single character `chr(65 + r)`, placed as
centered text at `(leftX − 0.75·wellSeparation,
topY + r·wellSeparation + fontSize/8)`, and the label for column `c` is the
string `str(c + 1)`, placed as centered text at
`(leftX + c·wellSeparation, topY − 0.55·wellSeparation − fontSize/8)`, both
with font size `labelFontSize`.  Row labels sit at document positions
`2 + n_rows·n_cols + r`, column labels right after them. -/
theorem labels_spec (P : PaperPlateParams)
    (hfill : fill_ok P.n_rows P.n_cols (mk_fill_matrix P.n_rows P.n_cols P.well_fill)) :
    (∀ r, r < P.n_rows →
      ((mkPaperPlate P).bind fun p =>
          p.svg.elements.get? (2 + P.n_rows * P.n_cols + r))
        = some (.text (Char.ofNat (65 + r)).toString
            (P.margin + P.left_padding - 0.75 * P.well_separation,
             P.margin + P.top_padding + (r : ℚ) * P.well_separation
               + P.label_font_size / 8)
            "middle" P.label_font_size "middle" "Futura")) ∧
    (∀ c, c < P.n_cols →
      ((mkPaperPlate P).bind fun p =>
          p.svg.elements.get? (2 + P.n_rows * P.n_cols + P.n_rows + c))
        = some (.text (toString (c + 1))
            (P.margin + P.left_padding + (c : ℚ) * P.well_separation,
             P.margin + P.top_padding - 0.55 * P.well_separation
               - P.label_font_size / 8)
            "middle" P.label_font_size "middle" "Futura")) := by
  rw [mkPaperPlate_eq P hfill]
  constructor
  · intro r hr
    show (plate_elements P).get? (2 + P.n_rows * P.n_cols + r) = _
    rw [plate_elements_get_row_label P r hr]
    have hchar : r + 65 = 65 + r := Nat.add_comm r 65
    simp only [left_x_of, top_y_of, hchar, Primitive.text.injEq, Option.some_inj,
      Prod.mk.injEq]
    exact ⟨trivial, ⟨by ring, by ring⟩, trivial, trivial, trivial, trivial⟩
  · intro c hc
    show (plate_elements P).get? (2 + P.n_rows * P.n_cols + P.n_rows + c) = _
    rw [plate_elements_get_col_label P c hc]
    simp only [left_x_of, top_y_of, Primitive.text.injEq, Option.some_inj,
      Prod.mk.injEq]
    exact ⟨trivial, ⟨by ring, by ring⟩, trivial, trivial, trivial, trivial⟩

/-- Closed instance of `labels_spec` at a concrete parameter set: the first
row label of the demo plate is the character A. -/
theorem labels_spec_witness :
    ((mkPaperPlate P_demo).bind fun p =>
        p.svg.elements.get? (2 + P_demo.n_rows * P_demo.n_cols + 0))
      = some (.text (Char.ofNat (65 + 0)).toString
          (P_demo.margin + P_demo.left_padding - 0.75 * P_demo.well_separation,
           P_demo.margin + P_demo.top_padding + (0 : ℚ) * P_demo.well_separation
             + P_demo.label_font_size / 8)
          "middle" P_demo.label_font_size "middle" "Futura") :=
  (labels_spec P_demo (by decide)).1 0 (by decide)

/-- The parameter record `Plate96.__init__` forwards for
`barrierThickness = 0.5`, `wellDiameter = 6`, `margin = 5` and the default
`edge_thickness`, `edge_distance` and fill. -/
def P96_std : PaperPlateParams :=
  { n_rows := 8, n_cols := 12, plate_length := 127.76, plate_width := 85.48,
    barrier_thickness := 0.5, well_diameter := 6, well_separation := 9,
    margin := 5, left_padding := 14.38, top_padding := 11.24,
    edge_corner_radius := 3.18, edge_thickness := 0.75, edges_distance := 1,
    label_font_size := 4, well_fill := .color "white" }

/-- The corresponding record for `Plate384.__init__`. -/
def P384_std : PaperPlateParams :=
  { n_rows := 16, n_cols := 24, plate_length := 127.76, plate_width := 85.48,
    barrier_thickness := 0.5, well_diameter := 6, well_separation := 4.5,
    margin := 5, left_padding := 12.7, top_padding := 8.99,
    edge_corner_radius := 3.18, edge_thickness := 0.75, edges_distance := 1,
    label_font_size := 3, well_fill := .color "white" }

/-- C2: the Standard-96 preset with `barrierThickness = 0.5`,
`wellDiameter = 6`, `margin = 5` produces `rows = 8`, `cols = 12`,
`plateLength = 127.76`, `plateWidth = 85.48`, `wellSeparation = 9`,
`leftX = 5 + 14.38 = 19.38`, `topY = 5 + 11.24 = 16.24` (so
`leftPadding = 14.38`, `topPadding = 11.24`); well A1 is centered at
`(19.38, 16.24)` and well H12 at `(118.38, 79.24)`.  The Standard-384 preset
with the same margin produces `rows = 16`, `cols = 24`,
`wellSeparation = 4.5`, with well A1 centered at `(17.7, 13.99)`. -/
theorem standard_presets :
    ((Plate96 0.5 6 5 0.75 1 (.color "white")).map fun p =>
        (p.n_rows, p.n_cols, p.plate_length, p.plate_width, p.well_separation,
         p.left_x, p.top_y))
      = some (8, 12, 127.76, 85.48, 9, 19.38, 16.24) ∧
    ((Plate96 0.5 6 5 0.75 1 (.color "white")).bind fun p =>
        p.svg.elements.get? (2 + (0 * 12 + 0)))
      = some (.circle (19.38, 16.24) 3 0.5 "black" "white") ∧
    ((Plate96 0.5 6 5 0.75 1 (.color "white")).bind fun p =>
        p.svg.elements.get? (2 + (7 * 12 + 11)))
      = some (.circle (118.38, 79.24) 3 0.5 "black" "white") ∧
    ((Plate384 0.5 6 5 0.75 1 (.color "white")).map fun p =>
        (p.n_rows, p.n_cols, p.well_separation))
      = some (16, 24, 4.5) ∧
    ((Plate384 0.5 6 5 0.75 1 (.color "white")).bind fun p =>
        p.svg.elements.get? (2 + (0 * 24 + 0)))
      = some (.circle (17.7, 13.99) 3 0.5 "black" "white") := by
  have h96 : Plate96 0.5 6 5 0.75 1 (.color "white") = some (plate_spec P96_std) := by
    show mkPaperPlate P96_std = _
    exact mkPaperPlate_eq P96_std (fill_ok_broadcast 8 12 "white")
  have h384 : Plate384 0.5 6 5 0.75 1 (.color "white") = some (plate_spec P384_std) := by
    show mkPaperPlate P384_std = _
    exact mkPaperPlate_eq P384_std (fill_ok_broadcast 16 24 "white")
  have hw96 : fm_get (mk_fill_matrix P96_std.n_rows P96_std.n_cols
      P96_std.well_fill) 0 0 = some "white" :=
    fm_get_broadcast 8 12 "white" 0 0 (by decide) (by decide)
  have hw96b : fm_get (mk_fill_matrix P96_std.n_rows P96_std.n_cols
      P96_std.well_fill) 7 11 = some "white" :=
    fm_get_broadcast 8 12 "white" 7 11 (by decide) (by decide)
  have hw384 : fm_get (mk_fill_matrix P384_std.n_rows P384_std.n_cols
      P384_std.well_fill) 0 0 = some "white" :=
    fm_get_broadcast 16 24 "white" 0 0 (by decide) (by decide)
  refine ⟨?_, ?_, ?_, ?_, ?_⟩
  · rw [h96]
    show some (8, 12, (127.76 : ℚ), (85.48 : ℚ), (9 : ℚ), left_x_of P96_std,
      top_y_of P96_std) = _
    norm_num [left_x_of, top_y_of, P96_std]
  · rw [h96]
    show (plate_elements P96_std).get? (2 + (0 * P96_std.n_cols + 0)) = _
    rw [plate_elements_get_well P96_std 0 0 (by decide) (by decide), hw96]
    norm_num [left_x_of, top_y_of, P96_std]
  · rw [h96]
    show (plate_elements P96_std).get? (2 + (7 * P96_std.n_cols + 11)) = _
    rw [plate_elements_get_well P96_std 7 11 (by decide) (by decide), hw96b]
    norm_num [left_x_of, top_y_of, P96_std]
  · rw [h384]
    show some (16, 24, (4.5 : ℚ)) = _
    norm_num
  · rw [h384]
    show (plate_elements P384_std).get? (2 + (0 * P384_std.n_cols + 0)) = _
    rw [plate_elements_get_well P384_std 0 0 (by decide) (by decide), hw384]
    norm_num [left_x_of, top_y_of, P384_std]

/-- A 1 × 1 plate handed a 2 × 2 fill matrix: the dimensions disagree with
`rows × cols`. -/
def P_mismatch : PaperPlateParams :=
  { P_demo with
      n_rows := 1
      n_cols := 1
      well_fill := .matrix [["red", "blue"], ["green", "white"]] }

/-- C4 evidence: the source performs no validation.  A construction whose
fill matrix is 2 × 2 against a 1 × 1 grid succeeds and emits a full document
(5 primitives); a construction with `n_rows = 0` also succeeds (3 primitives);
and a too-small matrix does not fail at validation time but aborts mid-draw
with an `IndexError` (modelled `none`), after edge primitives were already
added to the document. -/
theorem mismatched_fill_accepted :
    ((mkPaperPlate P_mismatch).map fun p => p.svg.elements.length) = some 5 ∧
    ((mkPaperPlate { P_mismatch with n_rows := 0 }).map fun p =>
      p.svg.elements.length) = some 3 ∧
    mkPaperPlate { P_mismatch with well_fill := .matrix [[]] } = none := by
  refine ⟨?_, ?_, rfl⟩
  · rw [mkPaperPlate_eq _ (by decide)]
    rfl
  · rw [mkPaperPlate_eq _ (by decide)]
    rfl

/-- C8 evidence: `to_pdf_inkscape` never raises, whatever exit status the
conversion subprocess reports — `os.system`'s return value is discarded. -/
theorem export_ignores_failure (inkscape_path svg_path pdf_path : String)
    (returncode : Int) (h : returncode ≠ 0) :
    (to_pdf_inkscape inkscape_path svg_path pdf_path returncode).raised_error
      = false :=
  rfl

/-- Closed instance of `export_ignores_failure`: a subprocess exit status of 1
still yields no error. -/
theorem export_ignores_failure_witness :
    (1 : Int) ≠ 0 ∧
    (to_pdf_inkscape "inkscape" "plate.svg" "plate.pdf" 1).raised_error = false :=
  ⟨by decide, export_ignores_failure "inkscape" "plate.svg" "plate.pdf" 1 (by decide)⟩

/-- A 33-row plate: more rows than letters of the alphabet. -/
def P33 : PaperPlateParams := { P_demo with n_rows := 33, n_cols := 1 }

/-- C10 counterexample: on the 33-row plate, the label of row 32 is the
string `"a"` — `chr(32 + 65)` is an alphabetic lowercase letter, refuting the
claim that the row label `chr(r + 65)` is non-alphabetic for every
`r ≥ 26`. -/
theorem row_label_alphabetic_cx :
    ((mkPaperPlate P33).bind fun p =>
        (p.svg.elements.get? (2 + 33 * 1 + 32)).bind text_content) = some "a" ∧
    (Char.ofNat (32 + 65)).isAlpha = true := by
  refine ⟨?_, by decide⟩
  rw [mkPaperPlate_eq P33 (fill_ok_broadcast 33 1 "white")]
  show ((plate_elements P33).get? (2 + P33.n_rows * P33.n_cols + 32)).bind
    text_content = some "a"
  rw [plate_elements_get_row_label P33 32 (by decide)]
  rfl

/-- C10 (amended): for every `n_rows > 26` with a broadcast fill,
construction still succeeds without error, and the row label for each row
index `r` is `chr(r + 65)` — no wrapping, doubling, or rejection; for
`26 ≤ r` the code point `65 + r` lies past `Z` (`> 90`), and the character is
non-alphabetic for `26 ≤ r ≤ 31` (e.g. row 26 is labeled the bracket
character) but an alphabetic lowercase letter for `32 ≤ r ≤ 57`. -/
theorem row_labels_beyond_26 (P : PaperPlateParams) (s : String)
    (h26 : 26 < P.n_rows) (hfill : P.well_fill = WellFill.color s) :
    (mkPaperPlate P).isSome = true ∧
    (∀ r, r < P.n_rows →
      ((mkPaperPlate P).bind fun p =>
          (p.svg.elements.get? (2 + P.n_rows * P.n_cols + r)).bind text_content)
        = some (Char.ofNat (r + 65)).toString) ∧
    (∀ r, r < 32 → 26 ≤ r →
      (Char.ofNat (r + 65)).isAlpha = false ∧ 90 < r + 65) ∧
    (∀ r, r < 58 → 32 ≤ r → (Char.ofNat (r + 65)).isAlpha = true) ∧
    (Char.ofNat (26 + 65)).toString = "[" := by
  have hok : fill_ok P.n_rows P.n_cols
      (mk_fill_matrix P.n_rows P.n_cols P.well_fill) := by
    rw [hfill]
    exact fill_ok_broadcast P.n_rows P.n_cols s
  refine ⟨?_, ?_, by decide, by decide, by decide⟩
  · rw [mkPaperPlate_eq P hok]
    rfl
  · intro r hr
    rw [mkPaperPlate_eq P hok]
    show ((plate_elements P).get? (2 + P.n_rows * P.n_cols + r)).bind
      text_content = _
    rw [plate_elements_get_row_label P r hr]
    rfl

/-- Closed instance of `row_labels_beyond_26` at the 33-row plate. -/
theorem row_labels_beyond_26_witness : (mkPaperPlate P33).isSome = true :=
  (row_labels_beyond_26 P33 "white" (by decide) rfl).1

end PaperMicrofluidics
